import Mathlib

/-! V-House reservation availability and booking-conflict logic: a shallow
embedding.

This file embeds the Convex backend functions of the v-house guesthouse
repository (`convex/rooms.ts` as reproduced in `docs/CUSTOMIZATION.md`, and
`convex/reservations.ts`) into Lean 4 and proves the testable properties of
its specification.

Modelling conventions:
* Calendar dates appear in the source as `"YYYY-MM-DD"` strings, compared
  lexicographically (`<`, `>`) and enumerated one day at a time by
  `getDatesInRange` via JS `Date` arithmetic.  For fixed-width well-formed
  date strings, lexicographic order coincides with chronological order, so a
  date is modelled as a `Nat` (a day number); string comparison becomes `Nat`
  comparison and the day-by-day enumeration becomes `List.range'`.
* Convex document ids are opaque; they are modelled as `Nat`, with insertion
  drawing fresh ids from a counter in the store.
* `Date.now()` timestamps are passed in explicitly as a `Nat` argument.
* JS `Array.prototype.sort` with comparator `(a, b) => a.order - b.order`
  is a stable sort by ascending `order`; it is modelled by a stable sort
  with the corresponding `≤` test.
* A Convex mutation that throws rolls the transaction back; a mutation is
  modelled as a function returning its result together with the store, the
  store being the input store on the error path.
-/

/-- Reservation status: the four literals of the `reservations.status` union
in `convex/schema.ts`. -/
inductive Status where
  | pending
  | confirmed
  | cancelled
  | completed
deriving DecidableEq, Repr

/-- A row of the `rooms` table (`convex/schema.ts`), with its document id. -/
structure Room where
  id : Nat
  name : String
  nameKo : String
  nameEn : String
  descriptionVi : String
  descriptionKo : String
  descriptionEn : String
  price : Int
  capacity : Int
  bedType : String
  amenities : List String
  images : List String
  isAvailable : Bool
  order : Int
deriving DecidableEq, Repr

/-- A row of the `reservations` table (`convex/schema.ts`), with its document
id.  `checkIn`/`checkOut` are day numbers (see the header comment). -/
structure Reservation where
  id : Nat
  roomId : Nat
  guestName : String
  guestEmail : String
  guestPhone : String
  guestCountry : String
  checkIn : Nat
  checkOut : Nat
  adults : Int
  children : Int
  totalPrice : Int
  status : Status
  specialRequests : Option String
  createdAt : Nat
  updatedAt : Nat
deriving DecidableEq, Repr

/-- A row of the `blockedDates` table (`convex/schema.ts`). -/
structure BlockedDate where
  id : Nat
  roomId : Nat
  date : Nat
  reason : Option String
deriving DecidableEq, Repr

/-- The persistence store: the three tables the availability logic reads,
plus a counter supplying fresh document ids. -/
structure Store where
  rooms : List Room
  reservations : List Reservation
  blockedDates : List BlockedDate
  nextId : Nat
deriving Repr

namespace VHouse

/-- Function `isOverlapping` from `getAvailableRooms` (rooms.ts):
`resCheckIn < checkOut && resCheckOut > checkIn`. -/
def isOverlapping (resCheckIn resCheckOut checkIn checkOut : Nat) : Bool :=
  decide (resCheckIn < checkOut) && decide (resCheckOut > checkIn)

/-- Function `getDatesInRange` from `getAvailableRooms` (rooms.ts): every
calendar day
`d` with `start ≤ d < end`, one day at a time (the JS loop pushes `current`
and increments it while `current < endDate`). -/
def getDatesInRange (start stop : Nat) : List Nat :=
  List.range' start (stop - start)

/-- Sorting by the `order` field: `rooms.sort((a, b) => a.order - b.order)`.
The JS sort is stable (ES2019), and a stable sort by a total preorder has a
unique result, so it is modelled by insertion sort (which the kernel can
evaluate). -/
def sortByOrder (rooms : List Room) : List Room :=
  List.insertionSort (fun a b => a.order ≤ b.order) rooms

/-- Query `list` (rooms.ts): bookable rooms only (`isAvailable` true),
sorted by `order`. -/
def list (s : Store) : List Room :=
  sortByOrder (s.rooms.filter (fun room => room.isAvailable))

/-- Query `listAll` (rooms.ts): every room, sorted by `order`. -/
def listAll (s : Store) : List Room :=
  sortByOrder s.rooms

/-- The reservation-status test inside `getAvailableRooms`:
`res.status === "pending" || res.status === "confirmed"`. -/
def isActiveStatus (st : Status) : Bool :=
  st == Status.pending || st == Status.confirmed

/-- Query `getAvailableRooms` (rooms.ts): bookable rooms minus rooms with an
overlapping pending/confirmed reservation and minus rooms with a blocked
date among the enumerated requested days, sorted by `order`. -/
def getAvailableRooms (s : Store) (checkIn checkOut : Nat) : List Room :=
  let allRooms := s.rooms.filter (fun room => room.isAvailable)
  let bookedRoomIds :=
    (s.reservations.filter (fun res =>
        isActiveStatus res.status &&
        isOverlapping res.checkIn res.checkOut checkIn checkOut)).map
      (fun res => res.roomId)
  let requestedDates := getDatesInRange checkIn checkOut
  let blockedRoomIds :=
    (s.blockedDates.filter (fun blocked =>
        requestedDates.contains blocked.date)).map
      (fun blocked => blocked.roomId)
  let availableRooms := allRooms.filter (fun room =>
    !bookedRoomIds.contains room.id && !blockedRoomIds.contains room.id)
  sortByOrder availableRooms

/-- Embeds `ctx.db.get` on the `reservations` table: resolve a document
id. -/
def findReservation (s : Store) (rid : Nat) : Option Reservation :=
  s.reservations.find? (fun r => r.id == rid)

/-- Embeds the `ctx.db.patch` call on a reservation with a status and an
update timestamp: rewrite the two
patched fields of the matching row, leaving every other row and field as it
was. -/
def patchReservationStatus (rs : List Reservation) (rid : Nat) (st : Status)
    (now : Nat) : List Reservation :=
  rs.map (fun r =>
    if r.id == rid then { r with status := st, updatedAt := now } else r)

/-- Mutation `updateStatus` (reservations.ts): patch `status` and `updatedAt`
unconditionally.  `ctx.db.patch` fails when the id does not resolve, hence
the `Option`. -/
def updateStatus (s : Store) (rid : Nat) (st : Status) (now : Nat) :
    Option Store :=
  if s.reservations.any (fun r => r.id == rid) then
    some { s with reservations := patchReservationStatus s.reservations rid st now }
  else
    none

/-- The three `throw new Error(...)` conditions of `cancel`
(reservations.ts), in source order. -/
inductive CancelErr where
  | notFound
  | unauthorized
  | invalidState
deriving DecidableEq, Repr

/-- Mutation `cancel` (reservations.ts): guest cancellation.  Get the
reservation
(throw not-found), check the guest email (throw unauthorized), require
`pending` status (throw invalid-state), then patch status to `cancelled`
with a fresh `updatedAt`.  The returned store is the input store on every
error path, since a throwing Convex mutation writes nothing. -/
def cancel (s : Store) (rid : Nat) (email : String) (now : Nat) :
    Except CancelErr Nat × Store :=
  match findReservation s rid with
  | none => (Except.error CancelErr.notFound, s)
  | some reservation =>
    if reservation.guestEmail != email then
      (Except.error CancelErr.unauthorized, s)
    else if reservation.status != Status.pending then
      (Except.error CancelErr.invalidState, s)
    else
      (Except.ok rid,
        { s with reservations :=
            patchReservationStatus s.reservations rid Status.cancelled now })

/-- The record returned by `getStats` (reservations.ts). -/
structure Stats where
  total : Nat
  pending : Nat
  confirmed : Nat
  cancelled : Nat
  completed : Nat
  totalRevenue : Int
deriving DecidableEq, Repr

/-- Query `getStats` (reservations.ts): per-status counts plus revenue
summed with
`reduce((sum, r) => sum + r.totalPrice, 0)` over the `confirmed`/`completed`
reservations. -/
def getStats (s : Store) : Stats :=
  { total := s.reservations.length
    pending := (s.reservations.filter (fun r => r.status == Status.pending)).length
    confirmed := (s.reservations.filter (fun r => r.status == Status.confirmed)).length
    cancelled := (s.reservations.filter (fun r => r.status == Status.cancelled)).length
    completed := (s.reservations.filter (fun r => r.status == Status.completed)).length
    totalRevenue :=
      (s.reservations.filter (fun r =>
          r.status == Status.confirmed || r.status == Status.completed)).foldl
        (fun sum r => sum + r.totalPrice) 0 }

/-- The fields of a `rooms` row supplied by `create`/`seedRooms` — everything
but the store-generated document id. -/
structure RoomData where
  name : String
  nameKo : String
  nameEn : String
  descriptionVi : String
  descriptionKo : String
  descriptionEn : String
  price : Int
  capacity : Int
  bedType : String
  amenities : List String
  images : List String
  isAvailable : Bool
  order : Int
deriving DecidableEq, Repr

/-- Embeds a `ctx.db.insert` call on the `rooms` table: append a row under a
fresh document id. -/
def insertRoom (s : Store) (d : RoomData) : Store :=
  { s with
    rooms := s.rooms ++
      [{ id := s.nextId, name := d.name, nameKo := d.nameKo, nameEn := d.nameEn
         descriptionVi := d.descriptionVi, descriptionKo := d.descriptionKo
         descriptionEn := d.descriptionEn, price := d.price
         capacity := d.capacity, bedType := d.bedType
         amenities := d.amenities, images := d.images
         isAvailable := d.isAvailable, order := d.order }]
    nextId := s.nextId + 1 }

/-- The `roomsData` array hard-coded in `seedRooms` (rooms.ts): six rooms,
all bookable, orders 1–6. -/
def seedRoomsData : List RoomData :=
  [ { name := "Phòng Hạnh Phúc", nameKo := "행복의 방", nameEn := "Happiness Room"
      descriptionVi := "Phòng ấm cúng với tông màu be, mang đến cảm giác thoải mái như ở nhà."
      descriptionKo := "베이지 톤의 아늑한 방으로, 집 같은 편안함을 선사합니다."
      descriptionEn := "A cozy room with beige tones, offering a comfortable home-like feeling."
      price := 50000, capacity := 4, bedType := "king"
      amenities := ["wifi", "ac", "tv", "fridge", "private_bathroom"]
      images := ["/images/room-happiness-1.jpg", "/images/room-happiness-2.jpg"]
      isAvailable := true, order := 1 }
  , { name := "Phòng Bình Yên", nameKo := "평화의 방", nameEn := "Peace Room"
      descriptionVi := "Phòng với tông màu trắng tinh khiết, thiết kế đơn giản và thanh lịch."
      descriptionKo := "순백의 화이트 톤으로 심플하고 우아한 디자인의 방입니다."
      descriptionEn := "A room with pure white tones, featuring simple and elegant design."
      price := 50000, capacity := 4, bedType := "king"
      amenities := ["wifi", "ac", "tv", "fridge", "private_bathroom"]
      images := ["/images/room-peace-1.jpg"]
      isAvailable := true, order := 2 }
  , { name := "Phòng Ấm Áp", nameKo := "따뜻한 방", nameEn := "Warmth Room"
      descriptionVi := "Phòng có giấy dán tường điểm nhấn và giường có ngăn chứa đồ tiện lợi."
      descriptionKo := "포인트 벽지와 수납 침대가 있는 실용적인 방입니다."
      descriptionEn := "A practical room with accent wallpaper and storage bed."
      price := 50000, capacity := 4, bedType := "king"
      amenities := ["wifi", "ac", "tv", "fridge", "private_bathroom"]
      images := ["/images/room-warmth-1.jpg", "/images/room-warmth-2.jpg"]
      isAvailable := true, order := 3 }
  , { name := "Phòng An Lành", nameKo := "평안의 방", nameEn := "Serenity Room"
      descriptionVi := "Phòng rộng rãi với đầy đủ tiện nghi, TV màn hình lớn."
      descriptionKo := "넓은 공간에 TV가 완비된 여유로운 방입니다."
      descriptionEn := "A spacious room fully equipped with a large TV."
      price := 50000, capacity := 4, bedType := "king"
      amenities := ["wifi", "ac", "tv", "fridge", "private_bathroom"]
      images := ["/images/room-serenity-1.jpg", "/images/room-serenity-2.jpg"]
      isAvailable := true, order := 4 }
  , { name := "Phòng Thư Giãn", nameKo := "휴식의 방", nameEn := "Relax Room"
      descriptionVi := "Phòng ấm cúng hoàn hảo để thư giãn sau một ngày dài."
      descriptionKo := "긴 하루 후 휴식하기에 완벽한 아늑한 방입니다."
      descriptionEn := "A cozy room perfect for relaxing after a long day."
      price := 50000, capacity := 4, bedType := "king"
      amenities := ["wifi", "ac", "tv", "fridge", "private_bathroom"]
      images := ["/images/room-serenity-2.jpg"]
      isAvailable := true, order := 5 }
  , { name := "Phòng Yêu Thương", nameKo := "사랑의 방", nameEn := "Love Room"
      descriptionVi := "Phòng lý tưởng cho các cặp đôi và gia đình nhỏ."
      descriptionKo := "커플과 소규모 가족에게 이상적인 방입니다."
      descriptionEn := "An ideal room for couples and small families."
      price := 50000, capacity := 4, bedType := "king"
      amenities := ["wifi", "ac", "tv", "fridge", "private_bathroom"]
      images := ["/images/room-warmth-2.jpg"]
      isAvailable := true, order := 6 } ]

/-- The `\x7b message, count \x7d` object returned by `seedRooms`. -/
structure SeedResult where
  message : String
  count : Nat
deriving DecidableEq, Repr

/-- Mutation `seedRooms` (rooms.ts): if the `rooms` table already has rows,
insert
nothing and report the existing count; otherwise insert the six seed rooms
in order. -/
def seedRooms (s : Store) : Store × SeedResult :=
  if s.rooms.length > 0 then
    (s, { message := "이미 객실 데이터가 있습니다.", count := s.rooms.length })
  else
    (seedRoomsData.foldl insertRoom s,
     { message := "객실 데이터가 생성되었습니다.", count := seedRoomsData.length })

/-! ## Concrete fixtures

Small stores used to evaluate the operations on concrete inputs, mirroring
the worked examples of the specification (two rooms, orders 1 and 2, one
reservation on days 10–12). -/

def roomA : Room :=
  { id := 1, name := "Room A", nameKo := "Room A", nameEn := "Room A"
    descriptionVi := "", descriptionKo := "", descriptionEn := ""
    price := 50000, capacity := 4, bedType := "king"
    amenities := [], images := [], isAvailable := true, order := 1 }

def roomB : Room :=
  { roomA with id := 2, name := "Room B", nameKo := "Room B", nameEn := "Room B", order := 2 }

def exReservation : Reservation :=
  { id := 10, roomId := 1, guestName := "G", guestEmail := "g@example.com"
    guestPhone := "", guestCountry := "", checkIn := 10, checkOut := 12
    adults := 2, children := 0, totalPrice := 100000
    status := Status.confirmed, specialRequests := none
    createdAt := 0, updatedAt := 0 }

def exStore : Store :=
  { rooms := [roomA, roomB], reservations := [exReservation]
    blockedDates := [], nextId := 100 }

/-- A pending reservation strictly spanning day 12 (days 10–14). -/
def strictSpanReservation : Reservation :=
  { exReservation with id := 11, status := Status.pending, checkIn := 10, checkOut := 14 }

def zeroNightStore : Store :=
  { rooms := [roomA], reservations := [strictSpanReservation]
    blockedDates := [], nextId := 100 }

def exBlocked : BlockedDate := { id := 20, roomId := 1, date := 11, reason := none }

def blockedStore : Store :=
  { rooms := [roomA, roomB], reservations := []
    blockedDates := [exBlocked], nextId := 100 }

def cancelledOnlyStore : Store :=
  { rooms := [roomA]
    reservations := [{ exReservation with status := Status.cancelled }]
    blockedDates := [], nextId := 100 }

def pendingReservation : Reservation := { exReservation with status := Status.pending }

def pendingStore : Store := { exStore with reservations := [pendingReservation] }

/-! ## Helper lemmas -/

lemma mem_getDatesInRange {a b d : Nat} :
    d ∈ getDatesInRange a b ↔ a ≤ d ∧ d < b := by
  rw [getDatesInRange, List.mem_range'_1]
  omega

/-- Membership in the availability result, characterised pointwise: a room is
returned iff it is a bookable row and no active overlapping reservation and
no blocked requested day points at its id. -/
lemma mem_getAvailableRooms {s : Store} {cIn cOut : Nat} {room : Room} :
    room ∈ getAvailableRooms s cIn cOut ↔
      room ∈ s.rooms ∧ room.isAvailable = true ∧
      (∀ res ∈ s.reservations,
         isActiveStatus res.status = true →
         isOverlapping res.checkIn res.checkOut cIn cOut = true →
         room.id ≠ res.roomId) ∧
      (∀ b ∈ s.blockedDates, cIn ≤ b.date → b.date < cOut → room.id ≠ b.roomId) := by
  unfold getAvailableRooms sortByOrder
  simp only [List.mem_insertionSort, List.mem_filter, Bool.and_eq_true,
    Bool.not_eq_true', List.contains_eq_any_beq, List.any_map,
    List.any_filter, List.any_eq_false, Function.comp, Bool.and_eq_true,
    beq_iff_eq, mem_getDatesInRange, and_assoc, List.forall_mem_map,
    List.forall_mem_filter, List.any_eq_true, ne_eq]
  constructor
  · rintro ⟨hmem, hav, hbook, hblock⟩
    refine ⟨hmem, hav, fun res hres hact hov => hbook res ⟨hres, hact, hov⟩, ?_⟩
    exact fun b hb hle hlt => hblock b ⟨hb, b.date, hle, hlt, rfl⟩
  · rintro ⟨hmem, hav, hbook, hblock⟩
    refine ⟨hmem, hav, fun res ⟨hres, hact, hov⟩ => hbook res hres hact hov, ?_⟩
    rintro b ⟨hb, x, hle, hlt, rfl⟩
    exact hblock b hb hle hlt

/-- Sanity check: the worked example of the specification.  Room A has a confirmed
reservation for days 10–12; the query 11–13 overlaps it and returns only
room B. -/
example : getAvailableRooms exStore 11 13 = [roomB] := by decide

/-- Sanity check: the query 12–14 does not overlap the 10–12 reservation
(same-day turnover), so both rooms are returned in display order. -/
example : getAvailableRooms exStore 12 14 = [roomA, roomB] := by decide

/-! ## Claim theorems -/

/-- C1: for every query range and every pending/confirmed reservation whose
date range overlaps the query under the half-open rule
(`resCheckIn < checkOut` and `resCheckOut > checkIn`), the room that
reservation references does not appear in `getAvailableRooms checkIn
checkOut`. -/
theorem getAvailableRooms_excludes_active_overlaps
    (s : Store) (checkIn checkOut : Nat) (res : Reservation)
    (hmem : res ∈ s.reservations)
    (hst : res.status = Status.pending ∨ res.status = Status.confirmed)
    (h1 : res.checkIn < checkOut) (h2 : res.checkOut > checkIn) :
    (getAvailableRooms s checkIn checkOut).all
      (fun room => room.id != res.roomId) = true := by
  rw [List.all_eq_true]
  intro room hroom
  rw [bne_iff_ne]
  have hact : isActiveStatus res.status = true := by
    rcases hst with h | h <;> simp [isActiveStatus, h]
  have hov : isOverlapping res.checkIn res.checkOut checkIn checkOut = true := by
    simp [isOverlapping]
    omega
  exact (mem_getAvailableRooms.mp hroom).2.2.1 res hmem hact hov

/-- C1 witness: in the example store, the confirmed reservation on days
10–12 overlaps the query 11–13, and indeed no returned room carries its
room id. -/
theorem getAvailableRooms_excludes_active_overlaps_witness :
    exReservation ∈ exStore.reservations ∧
    exReservation.status = Status.confirmed ∧
    exReservation.checkIn < 13 ∧ exReservation.checkOut > 11 ∧
    (getAvailableRooms exStore 11 13).all
      (fun room => room.id != exReservation.roomId) = true :=
  ⟨by decide, by decide, by decide, by decide,
    getAvailableRooms_excludes_active_overlaps exStore 11 13 exReservation
      (by decide) (Or.inr (by decide)) (by decide) (by decide)⟩

/-- C3: every blocked date whose day lies in the half-open requested range
excludes its room from `getAvailableRooms`, whatever the reservations are. -/
theorem getAvailableRooms_excludes_blocked
    (s : Store) (checkIn checkOut : Nat) (b : BlockedDate)
    (hmem : b ∈ s.blockedDates)
    (h1 : checkIn ≤ b.date) (h2 : b.date < checkOut) :
    (getAvailableRooms s checkIn checkOut).all
      (fun room => room.id != b.roomId) = true := by
  rw [List.all_eq_true]
  intro room hroom
  rw [bne_iff_ne]
  exact (mem_getAvailableRooms.mp hroom).2.2.2 b hmem h1 h2

/-- C3 witness: room A is blocked on day 11 with no reservation at all, and
the query 10–13 indeed never returns a room with its id. -/
theorem getAvailableRooms_excludes_blocked_witness :
    exBlocked ∈ blockedStore.blockedDates ∧
    10 ≤ exBlocked.date ∧ exBlocked.date < 13 ∧
    (getAvailableRooms blockedStore 10 13).all
      (fun room => room.id != exBlocked.roomId) = true :=
  ⟨by decide, by decide, by decide,
    getAvailableRooms_excludes_blocked blockedStore 10 13 exBlocked
      (by decide) (by decide) (by decide)⟩

/-- C4: cancelled/completed reservations never cause exclusion — a bookable
room whose every reservation is cancelled or completed and which has no
blocked date in the half-open requested range is returned by
`getAvailableRooms`, whatever date ranges those reservations have. -/
theorem getAvailableRooms_keeps_unconflicted
    (s : Store) (checkIn checkOut : Nat) (room : Room)
    (hmem : room ∈ s.rooms) (hav : room.isAvailable = true)
    (hres : ∀ res ∈ s.reservations, res.roomId = room.id →
        res.status = Status.cancelled ∨ res.status = Status.completed)
    (hblk : ∀ b ∈ s.blockedDates, b.roomId = room.id →
        ¬(checkIn ≤ b.date ∧ b.date < checkOut)) :
    room ∈ getAvailableRooms s checkIn checkOut := by
  refine mem_getAvailableRooms.mpr ⟨hmem, hav, ?_, ?_⟩
  · intro res hr hact _ heq
    rcases hres res hr heq.symm with h | h <;> simp [isActiveStatus, h] at hact
  · intro b hb hle hlt heq
    exact hblk b hb heq.symm ⟨hle, hlt⟩

/-- C4 witness: the only reservation of room A is cancelled (days 10–12); the
query 10–13, overlapping those dates, still returns room A. -/
theorem getAvailableRooms_keeps_unconflicted_witness :
    roomA ∈ cancelledOnlyStore.rooms ∧ roomA.isAvailable = true ∧
    roomA ∈ getAvailableRooms cancelledOnlyStore 10 13 :=
  ⟨by decide, by decide,
    getAvailableRooms_keeps_unconflicted cancelledOnlyStore 10 13 roomA
      (by decide) (by decide) (by decide) (by decide)⟩

/-- C2 counterexample: the zero-night query does NOT always return every
bookable room.  Room A is bookable, but the pending reservation on days
10–14 strictly spans day 12, and `isOverlapping` applied to the degenerate
range `[12, 12)` is `10 < 12 && 14 > 12 = true`, so `getAvailableRooms s 12
12` excludes room A. -/
theorem zero_night_counterexample :
    roomA ∈ zeroNightStore.rooms ∧ roomA.isAvailable = true ∧
    strictSpanReservation ∈ zeroNightStore.reservations ∧
    roomA ∉ getAvailableRooms zeroNightStore 12 12 := by
  refine ⟨by decide, by decide, by decide, ?_⟩
  decide

/-- C2 (amended): a zero-night query applies no blocked-date exclusion (the
day enumeration of `[d, d)` is empty), and a bookable room is returned iff
no pending/confirmed reservation has `resCheckIn < d < resCheckOut`; in
particular all bookable rooms are returned exactly when no active
reservation strictly spans `d`. -/
theorem getAvailableRooms_zero_night
    (s : Store) (d : Nat) (room : Room) :
    room ∈ getAvailableRooms s d d ↔
      room ∈ s.rooms ∧ room.isAvailable = true ∧
      ∀ res ∈ s.reservations, isActiveStatus res.status = true →
        res.checkIn < d → d < res.checkOut → room.id ≠ res.roomId := by
  rw [mem_getAvailableRooms]
  constructor
  · rintro ⟨hm, ha, hbook, -⟩
    refine ⟨hm, ha, fun res hr hact hlt hgt => hbook res hr hact ?_⟩
    simp [isOverlapping]
    omega
  · rintro ⟨hm, ha, hbook⟩
    refine ⟨hm, ha, ?_, ?_⟩
    · intro res hr hact hov
      simp only [isOverlapping, Bool.and_eq_true, decide_eq_true_eq] at hov
      exact hbook res hr hact hov.1 hov.2
    · intro b _ hle hlt
      exact absurd (lt_of_le_of_lt hle hlt) (lt_irrefl d)

/-- C2 witness: in the counterexample store, day 15 is spanned by no active
reservation (the pending one ends on day 14), so the zero-night query on day
15 returns room A. -/
theorem getAvailableRooms_zero_night_witness :
    roomA ∈ getAvailableRooms zeroNightStore 15 15 :=
  (getAvailableRooms_zero_night zeroNightStore 15 roomA).mpr (by decide)

/-- C5: `cancel` fails with not-found when the id does not resolve, else
with unauthorized when the email differs from the stored `guestEmail`, else
with invalid-state when the status is not pending, and otherwise succeeds,
patching the reservation status to cancelled — and these are the only
failure cases. -/
theorem cancel_spec (s : Store) (rid : Nat) (email : String) (now : Nat) :
    (findReservation s rid = none →
       cancel s rid email now = (Except.error CancelErr.notFound, s)) ∧
    (∀ r, findReservation s rid = some r →
       (r.guestEmail ≠ email →
          cancel s rid email now = (Except.error CancelErr.unauthorized, s)) ∧
       (r.guestEmail = email → r.status ≠ Status.pending →
          cancel s rid email now = (Except.error CancelErr.invalidState, s)) ∧
       (r.guestEmail = email → r.status = Status.pending →
          cancel s rid email now =
            (Except.ok rid,
             { s with reservations :=
                 patchReservationStatus s.reservations rid Status.cancelled now }))) := by
  constructor
  · intro h
    simp [cancel, h]
  · intro r h
    refine ⟨?_, ?_, ?_⟩
    · intro hne
      simp [cancel, h, bne_iff_ne, hne]
    · intro heq hnp
      simp [cancel, h, bne_iff_ne, heq, hnp]
    · intro heq hp
      simp [cancel, h, bne_iff_ne, heq, hp]

/-- C5 witness: cancelling the pending example reservation with the correct
email succeeds and patches its status to cancelled. -/
theorem cancel_spec_witness :
    cancel pendingStore 10 "g@example.com" 7 =
      (Except.ok 10,
       { pendingStore with reservations :=
           patchReservationStatus pendingStore.reservations 10 Status.cancelled 7 }) :=
  (((cancel_spec pendingStore 10 "g@example.com" 7).2 pendingReservation
      (by decide)).2.2) (by decide) (by decide)

/-- C9: guest cancellation is atomic on failure — whenever `cancel` returns
an error (not-found, unauthorized or invalid-state), the store it returns is
exactly the input store: no reservation, status or timestamp is written. -/
theorem cancel_error_preserves_store
    (s : Store) (rid : Nat) (email : String) (now : Nat) (e : CancelErr)
    (h : (cancel s rid email now).1 = Except.error e) :
    (cancel s rid email now).2 = s := by
  rcases hf : findReservation s rid with - | r
  · simp [cancel, hf]
  · by_cases h1 : r.guestEmail != email
    · simp [cancel, hf, h1]
    · by_cases h2 : r.status != Status.pending
      · simp [cancel, hf, h1, h2]
      · simp [cancel, hf, h1, h2] at h

/-- C9 witness: a cancellation attempt with the wrong email fails and leaves
the example store untouched. -/
theorem cancel_error_preserves_store_witness :
    (cancel exStore 10 "wrong@example.com" 3).2 = exStore :=
  cancel_error_preserves_store exStore 10 "wrong@example.com" 3
    CancelErr.unauthorized (by rfl)

/-- C6: `getStats` reports as `totalRevenue` exactly the sum of `totalPrice`
over the confirmed/completed reservations; pending and cancelled
reservations contribute nothing. -/
theorem getStats_totalRevenue_spec (s : Store) :
    (getStats s).totalRevenue =
      ((s.reservations.filter (fun r =>
          decide (r.status = Status.confirmed ∨ r.status = Status.completed))).map
        (fun r => r.totalPrice)).sum := by
  have hp : (fun (r : Reservation) =>
        r.status == Status.confirmed || r.status == Status.completed) =
      (fun r => decide (r.status = Status.confirmed ∨ r.status = Status.completed)) := by
    funext r
    cases r.status <;> rfl
  simp only [getStats]
  rw [List.sum_eq_foldl, List.foldl_map, hp]

/-- C7: for a resolving reservation id, `updateStatus` sets `status` and
`updatedAt` of that reservation, leaves its every other field and every
other reservation (and the other tables) unchanged, and a repeated call with
the same status again leaves the status and merely refreshes the
timestamp. -/
theorem updateStatus_spec (s : Store) (rid : Nat) (st : Status) (now : Nat)
    (h : s.reservations.any (fun r => r.id == rid) = true) :
    ∃ s', updateStatus s rid st now = some s' ∧
      s'.rooms = s.rooms ∧ s'.blockedDates = s.blockedDates ∧
      s'.nextId = s.nextId ∧
      s'.reservations.length = s.reservations.length ∧
      (∀ i, ∀ hi : i < s.reservations.length,
        (s.reservations[i].id ≠ rid →
           s'.reservations[i]? = some s.reservations[i]) ∧
        (s.reservations[i].id = rid →
           s'.reservations[i]? =
             some { s.reservations[i] with status := st, updatedAt := now })) ∧
      (∀ now₂ : Nat, updateStatus s' rid st now₂ = updateStatus s rid st now₂) := by
  refine ⟨{ s with reservations := patchReservationStatus s.reservations rid st now },
    ?_, rfl, rfl, rfl, ?_, ?_, ?_⟩
  · simp [updateStatus, h]
  · simp [patchReservationStatus]
  · intro i hi
    constructor
    · intro hne
      simp [patchReservationStatus, List.getElem?_map, List.getElem?_eq_getElem hi,
        beq_iff_eq, hne]
    · intro heq
      simp [patchReservationStatus, List.getElem?_map, List.getElem?_eq_getElem hi,
        beq_iff_eq, heq]
  · intro now₂
    have hany : (patchReservationStatus s.reservations rid st now).any
        (fun r => r.id == rid) = true := by
      unfold patchReservationStatus
      rw [List.any_map]
      have : ((fun r : Reservation => r.id == rid) ∘
          (fun r : Reservation =>
            if r.id == rid then { r with status := st, updatedAt := now } else r))
          = fun r : Reservation => r.id == rid := by
        funext r
        by_cases hr : (r.id == rid) = true <;> simp [Function.comp, hr]
      rw [this, h]
    have hpp : patchReservationStatus
        (patchReservationStatus s.reservations rid st now) rid st now₂
          = patchReservationStatus s.reservations rid st now₂ := by
      unfold patchReservationStatus
      rw [List.map_map]
      congr 1
      funext r
      by_cases hr : r.id == rid <;> simp [Function.comp, hr]
    simp [updateStatus, hany, h, hpp]

/-- C7 witness: updating the status of the example reservation succeeds (the id
resolves). -/
theorem updateStatus_spec_witness :
    (updateStatus exStore 10 Status.completed 42).isSome = true := by
  obtain ⟨s', hs', -⟩ := updateStatus_spec exStore 10 Status.completed 42 (by decide)
  rw [hs']
  rfl

/-- C8: `listAll` returns every room and `list` returns exactly the rooms
flagged `isAvailable`, both sorted by `order`; hence `listAll` is never
shorter than `list`, with equal lengths iff no room has its availability
flag off. -/
theorem room_views_spec (s : Store) :
    (∀ room : Room, room ∈ listAll s ↔ room ∈ s.rooms) ∧
    (∀ room : Room, room ∈ list s ↔ room ∈ s.rooms ∧ room.isAvailable = true) ∧
    (listAll s).Sorted (fun a b => a.order ≤ b.order) ∧
    (list s).Sorted (fun a b => a.order ≤ b.order) ∧
    (list s).length ≤ (listAll s).length ∧
    ((listAll s).length = (list s).length ↔
       ∀ room ∈ s.rooms, room.isAvailable = true) := by
  have hsorted : ∀ l : List Room,
      (sortByOrder l).Sorted (fun a b => a.order ≤ b.order) := by
    intro l
    haveI : IsTotal Room (fun a b : Room => a.order ≤ b.order) :=
      ⟨fun a b => le_total a.order b.order⟩
    haveI : IsTrans Room (fun a b : Room => a.order ≤ b.order) :=
      ⟨fun a b c hab hbc => le_trans hab hbc⟩
    exact List.sorted_insertionSort _ l
  have hlenAll : (listAll s).length = s.rooms.length := by
    simp [listAll, sortByOrder, List.length_insertionSort]
  have hlenList : (list s).length =
      (s.rooms.filter (fun room => room.isAvailable)).length := by
    simp [list, sortByOrder, List.length_insertionSort]
  refine ⟨?_, ?_, hsorted _, hsorted _, ?_, ?_⟩
  · intro room
    simp [listAll, sortByOrder, List.mem_insertionSort]
  · intro room
    simp [list, sortByOrder, List.mem_insertionSort, List.mem_filter]
  · rw [hlenAll, hlenList]
    exact List.length_filter_le _ _
  · rw [hlenAll, hlenList, eq_comm]
    exact List.filter_length_eq_length

/-- C8 witness: in the example store (both rooms bookable) the two views
have equal length. -/
theorem room_views_spec_witness :
    (listAll exStore).length = (list exStore).length :=
  ((room_views_spec exStore).2.2.2.2.2).mpr (by decide)

/-- C10: `seedRooms` inserts nothing when the rooms table is non-empty
(returning the existing count), so running it twice leaves the same rooms
table as running it once. -/
theorem seedRooms_idempotent (s : Store) :
    (s.rooms ≠ [] →
       seedRooms s =
         (s, { message := "이미 객실 데이터가 있습니다.", count := s.rooms.length })) ∧
    (seedRooms (seedRooms s).1).1.rooms = (seedRooms s).1.rooms := by
  have hfold : ∀ (ds : List RoomData) (t : Store),
      (ds.foldl insertRoom t).rooms.length = t.rooms.length + ds.length := by
    intro ds
    induction ds with
    | nil => intro t; simp
    | cons d ds ih =>
      intro t
      rw [List.foldl_cons, ih]
      simp [insertRoom]
      omega
  constructor
  · intro hne
    have hpos : 0 < s.rooms.length := List.length_pos.mpr hne
    simp [seedRooms, hpos]
  · rcases Nat.eq_zero_or_pos s.rooms.length with h0 | hpos
    · have hnpos : ¬ s.rooms.length > 0 := by omega
      have h1 : (seedRooms s).1 = seedRoomsData.foldl insertRoom s := by
        simp [seedRooms, hnpos]
      have h6 : seedRoomsData.length = 6 := rfl
      have h2 : (seedRooms s).1.rooms.length > 0 := by
        rw [h1, hfold, h6]
        omega
      generalize hX : (seedRooms s).1 = X at h2 ⊢
      simp [seedRooms, h2]
    · have h1 : (seedRooms s).1 = s := by
        simp [seedRooms, hpos]
      rw [h1, h1]

/-- C10 witness: on the already-populated example store, `seedRooms` is a
no-op reporting the existing count of 2. -/
theorem seedRooms_idempotent_witness :
    seedRooms exStore =
      (exStore, { message := "이미 객실 데이터가 있습니다.", count := 2 }) :=
  (seedRooms_idempotent exStore).1 (by decide)

end VHouse
